import Mathlib

/-!
Shallow embedding of the position risk/exit engine of the `new-market`
repository: the CE/PE intraday trader of
`nifty50_intraday_ce_pe_trading.py` (admission control, exit precedence,
position ledger mutation) together with the position sizing and setup
validation of `nifty50_options_trading.py`.

Python floats are modelled as exact rationals (`ℚ`), Python `int` as `ℤ`,
timestamps as integers (an abstract totally ordered clock), and the
external collaborators (market session, order execution gateway) as
explicit parameters, following the spec scope which treats them as
external.  Dictionaries keyed by trade id are modelled as lists in
insertion order, which is Python dict iteration order.
-/

namespace NewMarket

/-- `OptionType` enum of `nifty50_options_trading.py` (CALL = "CE", PUT = "PE"). -/
inductive OptionType
  | CALL
  | PUT
deriving DecidableEq, Repr

/-- The `action` string of a trade: "BUY" or "SELL". -/
inductive Action
  | BUY
  | SELL
deriving DecidableEq, Repr

/-- The exit reason strings produced by `monitor_ce_pe_positions`. -/
inductive ExitReason
  | STOP_LOSS
  | TARGET_HIT
  | TIME_BASED
  | TRAILING_STOP
deriving DecidableEq, Repr

/-- The reason strings returned by `can_place_ce_pe_trade`, one constructor
per distinct `return` statement of the source. -/
inductive AdmitReason
  | MARKET_CLOSED
  | MAX_TOTAL_POSITIONS
  | MAX_CE_POSITIONS
  | MAX_PE_POSITIONS
  | MAX_SPREAD_POSITIONS
  | DAILY_LOSS_LIMIT
  | OK
deriving DecidableEq, Repr

/-- The `CE_PE_TradeSetup` dataclass of `nifty50_intraday_ce_pe_trading.py`
(strategy/time-slot tags, which are display-only, are omitted).  The fields
`risk`, `reward`, `risk_reward_ratio`, `max_loss`, `max_profit` and
`exit_time` are the ones (re)computed by `__post_init__`. -/
structure CE_PE_TradeSetup where
  entry_price : ℚ
  stop_loss : ℚ
  target_price : ℚ
  quantity : ℤ
  entry_time : ℤ
  max_holding_time : ℤ
  exit_time : ℤ
  risk_reward_ratio : ℚ
  max_loss : ℚ
  max_profit : ℚ
  intraday_stop_loss : ℚ
  trailing_stop : Bool
  trailing_stop_percentage : ℚ
  option_type : OptionType
  strike_price : ℚ
  is_spread_trade : Bool
  risk : ℚ
  reward : ℚ
deriving DecidableEq, Repr

/-- Construction of a `CE_PE_TradeSetup`, including `__post_init__`: the
`risk_reward_ratio`, `max_loss` and `max_profit` constructor arguments are
always overwritten by `__post_init__`, so they are not taken as arguments;
`exit_time` falls back to `entry_time + max_holding_time` when the caller
passes a falsy (`none`) value. -/
def mkCE_PE_TradeSetup (entry_price stop_loss target_price : ℚ) (quantity : ℤ)
    (entry_time max_holding_time : ℤ) (exit_time : Option ℤ)
    (intraday_stop_loss : ℚ) (trailing_stop : Bool)
    (trailing_stop_percentage : ℚ) (option_type : OptionType)
    (strike_price : ℚ) (is_spread_trade : Bool) : CE_PE_TradeSetup :=
  let risk := |entry_price - stop_loss|
  let reward := |target_price - entry_price|
  { entry_price := entry_price
    stop_loss := stop_loss
    target_price := target_price
    quantity := quantity
    entry_time := entry_time
    max_holding_time := max_holding_time
    exit_time := exit_time.getD (entry_time + max_holding_time)
    risk_reward_ratio := if 0 < risk then reward / risk else 0
    max_loss := risk * quantity * 50
    max_profit := reward * quantity * 50
    intraday_stop_loss := intraday_stop_loss
    trailing_stop := trailing_stop
    trailing_stop_percentage := trailing_stop_percentage
    option_type := option_type
    strike_price := strike_price
    is_spread_trade := is_spread_trade
    risk := risk
    reward := reward }

/-- One entry of the `intraday_positions` dict built by
`place_ce_pe_intraday_trade`: the trade id key together with the fields of
the stored record that the monitoring and exit code reads
(`contract.option_type`, `action`, `quantity`, `entry_price`, `stop_loss`,
`target_price`, `entry_time`, `setup`, `is_spread`). -/
structure PositionEntry where
  trade_id : ℕ
  option_type : OptionType
  strike_price : ℚ
  action : Action
  quantity : ℤ
  entry_price : ℚ
  stop_loss : ℚ
  target_price : ℚ
  entry_time : ℤ
  setup : CE_PE_TradeSetup
  is_spread : Bool
deriving DecidableEq, Repr

/-- `_should_exit_ce_pe_stop_loss`: BUY exits when price has fallen to the
stop, SELL when it has risen to it. -/
def should_exit_ce_pe_stop_loss (position : PositionEntry) (current_price : ℚ) : Bool :=
  match position.action with
  | .BUY => decide (current_price ≤ position.setup.stop_loss)
  | .SELL => decide (position.setup.stop_loss ≤ current_price)

/-- `_should_exit_ce_pe_target`. -/
def should_exit_ce_pe_target (position : PositionEntry) (current_price : ℚ) : Bool :=
  match position.action with
  | .BUY => decide (position.setup.target_price ≤ current_price)
  | .SELL => decide (current_price ≤ position.setup.target_price)

/-- `_should_exit_time_based`: fires when the current time has reached the
setup's planned `exit_time`. -/
def should_exit_time_based (position : PositionEntry) (current_time : ℤ) : Bool :=
  decide (position.setup.exit_time ≤ current_time)

/-- `_should_exit_trailing_stop`: the source recomputes the trailing level
from the *current* tick price and compares that same price against it. -/
def should_exit_trailing_stop (position : PositionEntry) (current_price : ℚ) : Bool :=
  if position.setup.trailing_stop = false then false
  else
    match position.action with
    | .BUY =>
        let trailing_level := current_price * (1 - position.setup.trailing_stop_percentage)
        decide (current_price ≤ trailing_level)
    | .SELL =>
        let trailing_level := current_price * (1 + position.setup.trailing_stop_percentage)
        decide (trailing_level ≤ current_price)

/-- The per-position body of the loop in `monitor_ce_pe_positions`: the
`if/elif` chain checks stop loss, target, time-based and trailing stop in
this fixed order and records the first match. -/
def exit_reason_for (position : PositionEntry) (current_price : ℚ)
    (current_time : ℤ) : Option ExitReason :=
  if should_exit_ce_pe_stop_loss position current_price then some .STOP_LOSS
  else if should_exit_ce_pe_target position current_price then some .TARGET_HIT
  else if should_exit_time_based position current_time then some .TIME_BASED
  else if should_exit_trailing_stop position current_price then some .TRAILING_STOP
  else none

/-- Python `int(x)` on a number: truncation toward zero. -/
def pyInt (x : ℚ) : ℤ :=
  if 0 ≤ x then ⌊x⌋ else -⌊-x⌋

/-- `calculate_position_size` of `nifty50_options_trading.py`: risk per lot
uses the hardcoded lot size 50; the size is floored to a minimum of 1 and
then capped by the number of lots 10% of the account balance can buy. -/
def calculate_position_size (entry_price stop_loss risk_amount account_balance : ℚ) : ℤ :=
  let risk_per_lot := |entry_price - stop_loss| * 50
  if risk_per_lot ≤ 0 then 0
  else
    let position_size := pyInt (risk_amount / risk_per_lot)
    let position_size := if position_size < 1 then 1 else position_size
    let max_lots_by_balance := pyInt (account_balance * (1 / 10) / (entry_price * 50))
    min position_size max_lots_by_balance

/-- The `TradeSetup` dataclass of `nifty50_options_trading.py`; `risk`,
`reward`, `risk_reward_ratio`, `max_loss` and `max_profit` are computed by
`__post_init__`. -/
structure TradeSetup where
  entry_price : ℚ
  stop_loss : ℚ
  target_price : ℚ
  quantity : ℤ
  risk_reward_ratio : ℚ
  max_loss : ℚ
  max_profit : ℚ
  risk : ℚ
  reward : ℚ
deriving DecidableEq, Repr

/-- Construction of a `TradeSetup` including `__post_init__` (the three
always-overwritten constructor arguments are not taken). -/
def mkTradeSetup (entry_price stop_loss target_price : ℚ) (quantity : ℤ) : TradeSetup :=
  let risk := |entry_price - stop_loss|
  let reward := |target_price - entry_price|
  { entry_price := entry_price
    stop_loss := stop_loss
    target_price := target_price
    quantity := quantity
    risk_reward_ratio := if 0 < risk then reward / risk else 0
    max_loss := risk * quantity * 50
    max_profit := reward * quantity * 50
    risk := risk
    reward := reward }

/-- The entry/stop/target validation at the top of
`place_option_order_with_setup`: for BUY the stop must be strictly below and
the target strictly above the entry, mirrored for SELL; a violation raises
`ValueError`. -/
def setup_order_valid (action : Action) (entry_price stop_loss target_price : ℚ) : Bool :=
  match action with
  | .BUY => decide (stop_loss < entry_price) && decide (entry_price < target_price)
  | .SELL => decide (entry_price < stop_loss) && decide (target_price < entry_price)

/-- `place_option_order_with_setup`: the `ValueError` raised on a violating
setup is caught by the function's own `except` block, so the call returns
`None` (here `none`) and no `TradeSetup` is created or activated.  The
downstream `place_option_order` call touches the external quote and
execution collaborators; its success is abstracted by `order_ok`. -/
def place_option_order_with_setup (account_balance max_risk_per_trade : ℚ)
    (action : Action) (entry_price stop_loss target_price : ℚ)
    (quantity : Option ℤ) (risk_amount : Option ℚ) (order_ok : Bool) :
    Option TradeSetup :=
  if setup_order_valid action entry_price stop_loss target_price = false then none
  else
    let qty :=
      match quantity with
      | some q => q
      | none =>
          let risk := risk_amount.getD (account_balance * max_risk_per_trade)
          calculate_position_size entry_price stop_loss risk account_balance
    let trade_setup := mkTradeSetup entry_price stop_loss target_price qty
    if order_ok then some trade_setup else none

/-- One element of the list returned by `monitor_ce_pe_positions`. -/
structure ExitDecision where
  trade_id : ℕ
  reason : ExitReason
  current_price : ℚ
deriving DecidableEq, Repr

/-- `monitor_ce_pe_positions`: iterate the positions dict in insertion order
and collect at most one exit decision per position. -/
def monitor_ce_pe_positions (positions : List PositionEntry) (current_price : ℚ)
    (current_time : ℤ) : List ExitDecision :=
  positions.filterMap fun position =>
    (exit_reason_for position current_price current_time).map fun reason =>
      { trade_id := position.trade_id, reason := reason, current_price := current_price }

/-- The exit record built by `exit_ce_pe_position` (the database write and
the holding-duration display field are omitted). -/
structure ExitRecord where
  trade_id : ℕ
  exit_time : ℤ
  exit_price : ℚ
  exit_reason : ExitReason
  pnl : ℚ
deriving DecidableEq, Repr

/-- The mutable trader state of `EnhancedIntradayNifty50Trader` that the
admission/placement/exit code reads and writes.  `market_open` stands for
the external `is_market_open()` clock check; `next_trade_id` stands for the
generated unique trade id. -/
structure TraderState where
  market_open : Bool
  account_balance : ℚ
  intraday_positions : List PositionEntry
  intraday_trades : List (PositionEntry × ExitRecord)
  daily_pnl : ℚ
  ce_positions : ℤ
  pe_positions : ℤ
  spread_positions : ℤ
  next_trade_id : ℕ
deriving DecidableEq, Repr

/-- The limits fixed in `__init__`: `max_intraday_positions = 5`,
`max_ce_positions = 3`, `max_pe_positions = 3`, `max_spread_positions = 2`,
and the daily loss limit `abs(daily_pnl) > account_balance * 0.05`. -/
def can_place_ce_pe_trade (s : TraderState) (option_type : OptionType)
    (is_spread : Bool) : Bool × AdmitReason :=
  if s.market_open = false then (false, .MARKET_CLOSED)
  else if 5 ≤ s.intraday_positions.length then (false, .MAX_TOTAL_POSITIONS)
  else if option_type = .CALL ∧ 3 ≤ s.ce_positions then (false, .MAX_CE_POSITIONS)
  else if option_type = .PUT ∧ 3 ≤ s.pe_positions then (false, .MAX_PE_POSITIONS)
  else if is_spread = true ∧ 2 ≤ s.spread_positions then (false, .MAX_SPREAD_POSITIONS)
  else if s.account_balance * (5 / 100) < |s.daily_pnl| then (false, .DAILY_LOSS_LIMIT)
  else (true, .OK)

/-- `place_ce_pe_intraday_trade`.  `now` is `datetime.now()`; `order_ok`
abstracts the external `place_option_order` outcome (quote lookup and
simulated execution); a `none` optional argument is a Python `None` default.
The stop/target formulas are identical in the CALL and PUT branches of the
source, so the branch on `option_type` is collapsed. -/
def place_ce_pe_intraday_trade (s : TraderState) (option_type : OptionType)
    (strike_price : ℚ) (action : Action) (entry_price : ℚ)
    (stop_loss_percentage target_percentage : Option ℚ)
    (quantity : Option ℤ) (risk_amount : Option ℚ)
    (max_holding_hours : Option ℤ) (is_spread : Bool) (now : ℤ)
    (order_ok : Bool) : TraderState × Option PositionEntry :=
  let can_trade := can_place_ce_pe_trade s option_type is_spread
  if can_trade.1 = false then (s, none)
  else
    let slp := stop_loss_percentage.getD (15 / 100)
    let tp := target_percentage.getD (30 / 100)
    let hours := max_holding_hours.getD 6
    let stop_loss :=
      match action with
      | .BUY => entry_price * (1 - slp)
      | .SELL => entry_price * (1 + slp)
    let target_price :=
      match action with
      | .BUY => entry_price * (1 + tp)
      | .SELL => entry_price * (1 - tp)
    let qty :=
      match quantity with
      | some q => q
      | none =>
          let risk :=
            match risk_amount with
            | some r => r
            | none =>
                s.account_balance * (3 / 100) * (if is_spread then 3 / 2 else 1)
          calculate_position_size entry_price stop_loss risk s.account_balance
    let setup := mkCE_PE_TradeSetup entry_price stop_loss target_price qty
      now hours (some (now + hours)) stop_loss true (5 / 100)
      option_type strike_price is_spread
    if order_ok = false then (s, none)
    else
      let position : PositionEntry :=
        { trade_id := s.next_trade_id
          option_type := option_type
          strike_price := strike_price
          action := action
          quantity := qty
          entry_price := entry_price
          stop_loss := stop_loss
          target_price := target_price
          entry_time := now
          setup := setup
          is_spread := is_spread }
      ({ s with
          intraday_positions := s.intraday_positions ++ [position]
          ce_positions :=
            if option_type = .CALL then s.ce_positions + 1 else s.ce_positions
          pe_positions :=
            if option_type = .PUT then s.pe_positions + 1 else s.pe_positions
          spread_positions :=
            if is_spread then s.spread_positions + 1 else s.spread_positions
          next_trade_id := s.next_trade_id + 1 },
        some position)

/-- The P&L formula of `exit_ce_pe_position`: `(exit - entry) * quantity *
50` for BUY and `(entry - exit) * quantity * 50` for SELL. -/
def exit_pnl (position : PositionEntry) (exit_price : ℚ) : ℚ :=
  match position.action with
  | .BUY => (exit_price - position.entry_price) * position.quantity * 50
  | .SELL => (position.entry_price - exit_price) * position.quantity * 50

/-- `exit_ce_pe_position`: an unknown (or already exited, hence removed)
trade id returns `False` and mutates nothing; otherwise the realized P&L is
added to `daily_pnl`, the per-class counters are decremented with a clamp
at zero, the position leaves the active dict and joins the history. -/
def exit_ce_pe_position (s : TraderState) (trade_id : ℕ) (reason : ExitReason)
    (exit_price : ℚ) (now : ℤ) : TraderState × Bool :=
  match s.intraday_positions.find? (fun p => p.trade_id == trade_id) with
  | none => (s, false)
  | some position =>
      let pnl := exit_pnl position exit_price
      let record : ExitRecord :=
        { trade_id := trade_id
          exit_time := now
          exit_price := exit_price
          exit_reason := reason
          pnl := pnl }
      ({ s with
          daily_pnl := s.daily_pnl + pnl
          ce_positions :=
            if position.option_type = .CALL then max 0 (s.ce_positions - 1)
            else s.ce_positions
          pe_positions :=
            if position.option_type = .CALL then s.pe_positions
            else max 0 (s.pe_positions - 1)
          spread_positions :=
            if position.is_spread then max 0 (s.spread_positions - 1)
            else s.spread_positions
          intraday_positions :=
            s.intraday_positions.filter (fun p => p.trade_id != trade_id)
          intraday_trades := s.intraday_trades ++ [(position, record)] },
        true)

/-- `place_straddle_trade`: a CE and a PE leg at the same strike, both BUY
and both flagged `is_spread`, placed one after the other; the straddle is
returned only when both legs succeeded, and no compensating exit is issued
when only the first leg went through. -/
def place_straddle_trade (s : TraderState) (strike_price : ℚ)
    (entry_price_ce entry_price_pe : ℚ)
    (stop_loss_percentage target_percentage : ℚ) (quantity : ℤ)
    (risk_amount : Option ℚ) (now : ℤ) (ce_order_ok pe_order_ok : Bool) :
    TraderState × Option (PositionEntry × PositionEntry) :=
  let ce := place_ce_pe_intraday_trade s .CALL strike_price .BUY entry_price_ce
    (some stop_loss_percentage) (some target_percentage) (some quantity)
    risk_amount none true now ce_order_ok
  let pe := place_ce_pe_intraday_trade ce.1 .PUT strike_price .BUY entry_price_pe
    (some stop_loss_percentage) (some target_percentage) (some quantity)
    risk_amount none true now pe_order_ok
  match ce.2, pe.2 with
  | some ce_trade, some pe_trade => (pe.1, some (ce_trade, pe_trade))
  | _, _ => (pe.1, none)

/-- An operation on the trader state: one `place_ce_pe_intraday_trade` call
or one `exit_ce_pe_position` call, with the external inputs (clock, order
outcome) recorded in the operation. -/
inductive TraderOp
  | place (option_type : OptionType) (strike_price : ℚ) (action : Action)
      (entry_price : ℚ) (stop_loss_percentage target_percentage : Option ℚ)
      (quantity : Option ℤ) (risk_amount : Option ℚ)
      (max_holding_hours : Option ℤ) (is_spread : Bool) (now : ℤ)
      (order_ok : Bool)
  | exit (trade_id : ℕ) (reason : ExitReason) (exit_price : ℚ) (now : ℤ)
deriving DecidableEq, Repr

/-- Apply one operation to the trader state, discarding the return value. -/
def stepTrader (s : TraderState) : TraderOp → TraderState
  | .place option_type strike_price action entry_price slp tp quantity
      risk_amount hours is_spread now order_ok =>
      (place_ce_pe_intraday_trade s option_type strike_price action entry_price
        slp tp quantity risk_amount hours is_spread now order_ok).1
  | .exit trade_id reason exit_price now =>
      (exit_ce_pe_position s trade_id reason exit_price now).1

/-- Run a sequence of trade-placement and exit operations. -/
def runTrader (s : TraderState) (ops : List TraderOp) : TraderState :=
  ops.foldl stepTrader s

/-! ## Theorems -/

/-- CALL and PUT are distinct option types. -/
@[simp] lemma OptionType_CALL_ne_PUT : OptionType.CALL ≠ OptionType.PUT := by decide

/-- PUT and CALL are distinct option types. -/
@[simp] lemma OptionType_PUT_ne_CALL : OptionType.PUT ≠ OptionType.CALL := by decide

/-- BUY and SELL are distinct actions. -/
@[simp] lemma Action_BUY_ne_SELL : Action.BUY ≠ Action.SELL := by decide

/-- SELL and BUY are distinct actions. -/
@[simp] lemma Action_SELL_ne_BUY : Action.SELL ≠ Action.BUY := by decide

/-- Each position contributes at most one decision to the monitor output:
an occurrence count over the produced decisions is bounded by the
occurrence count over the scanned positions. -/
lemma monitor_countP_le (positions : List PositionEntry) (current_price : ℚ)
    (current_time : ℤ) (trade_id : ℕ) :
    (monitor_ce_pe_positions positions current_price current_time).countP
        (fun d => d.trade_id == trade_id) ≤
      positions.countP (fun p => p.trade_id == trade_id) := by
  induction positions with
  | nil => simp [monitor_ce_pe_positions]
  | cons p ps ih =>
      rw [monitor_ce_pe_positions, List.filterMap_cons]
      cases hr : exit_reason_for p current_price current_time with
      | none =>
          simp only [Option.map_none']
          rw [List.countP_cons]
          exact le_trans ih (Nat.le_add_right _ _)
      | some reason =>
          simp only [Option.map_some']
          rw [List.countP_cons, List.countP_cons]
          exact Nat.add_le_add ih (le_refl _)

/-- C1.  Exit evaluation checks stop-loss, target, time-based and
trailing-stop in this fixed order, the first match is the single reported
reason (in particular a price satisfying both the stop-loss and the target
condition reports STOP_LOSS), and a position never contributes more than
one exit decision to the monitor output of a tick. -/
theorem c1_exit_precedence (p : PositionEntry) (current_price : ℚ) (current_time : ℤ) :
    (exit_reason_for p current_price current_time = some .STOP_LOSS ↔
      should_exit_ce_pe_stop_loss p current_price = true)
  ∧ (exit_reason_for p current_price current_time = some .TARGET_HIT ↔
      (should_exit_ce_pe_stop_loss p current_price = false ∧
       should_exit_ce_pe_target p current_price = true))
  ∧ (exit_reason_for p current_price current_time = some .TIME_BASED ↔
      (should_exit_ce_pe_stop_loss p current_price = false ∧
       should_exit_ce_pe_target p current_price = false ∧
       should_exit_time_based p current_time = true))
  ∧ (exit_reason_for p current_price current_time = some .TRAILING_STOP ↔
      (should_exit_ce_pe_stop_loss p current_price = false ∧
       should_exit_ce_pe_target p current_price = false ∧
       should_exit_time_based p current_time = false ∧
       should_exit_trailing_stop p current_price = true))
  ∧ (should_exit_ce_pe_stop_loss p current_price = true →
       should_exit_ce_pe_target p current_price = true →
       exit_reason_for p current_price current_time = some .STOP_LOSS)
  ∧ (∀ (positions : List PositionEntry) (trade_id : ℕ),
      (monitor_ce_pe_positions positions current_price current_time).countP
          (fun d => d.trade_id == trade_id) ≤
        positions.countP (fun q => q.trade_id == trade_id)) := by
  refine ⟨?_, ?_, ?_, ?_, ?_, fun positions trade_id =>
    monitor_countP_le positions current_price current_time trade_id⟩ <;>
  · cases hsl : should_exit_ce_pe_stop_loss p current_price <;>
    cases htg : should_exit_ce_pe_target p current_price <;>
    cases htm : should_exit_time_based p current_time <;>
    cases htr : should_exit_trailing_stop p current_price <;>
    simp [exit_reason_for, hsl, htg, htm, htr]

/-- A tie position used by the C1 witness: its setup crosses stop and
target (stop 130, target 85 for a BUY), so a tick at 100 satisfies both
the stop-loss and the target condition. -/
def c1_tie_position : PositionEntry :=
  { trade_id := 1
    option_type := .CALL
    strike_price := 25000
    action := .BUY
    quantity := 1
    entry_price := 100
    stop_loss := 130
    target_price := 85
    entry_time := 0
    setup := mkCE_PE_TradeSetup 100 130 85 1 0 6 (some 1000) 130 true (5 / 100) .CALL 25000 false
    is_spread := false }

/-- Witness for C1: at price 100 the tie position satisfies both the
stop-loss and the target condition and the reported reason is STOP_LOSS. -/
theorem c1_witness :
    should_exit_ce_pe_stop_loss c1_tie_position 100 = true ∧
    should_exit_ce_pe_target c1_tie_position 100 = true ∧
    exit_reason_for c1_tie_position 100 0 = some .STOP_LOSS := by
  have hsl : should_exit_ce_pe_stop_loss c1_tie_position 100 = true := by
    norm_num [should_exit_ce_pe_stop_loss, c1_tie_position, mkCE_PE_TradeSetup]
  have htg : should_exit_ce_pe_target c1_tie_position 100 = true := by
    norm_num [should_exit_ce_pe_target, c1_tie_position, mkCE_PE_TradeSetup]
  exact ⟨hsl, htg, (c1_exit_precedence c1_tie_position 100 0).2.2.2.2.1 hsl htg⟩

/-- C3.  With trailing enabled and a trailing fraction `0 < f < 1`, the
trailing-stop trigger compares the current price against a level computed
from that same current price, hence never fires at a positive price. -/
theorem c3_trailing_stop_never_fires (p : PositionEntry) (current_price : ℚ)
    (henabled : p.setup.trailing_stop = true)
    (hf : 0 < p.setup.trailing_stop_percentage)
    (hf1 : p.setup.trailing_stop_percentage < 1)
    (hprice : 0 < current_price) :
    should_exit_trailing_stop p current_price = false := by
  have hmul : 0 < current_price * p.setup.trailing_stop_percentage :=
    mul_pos hprice hf
  cases hact : p.action <;>
    simp only [should_exit_trailing_stop, henabled, hact] <;>
    simp only [Bool.true_eq_false, if_false] <;>
    rw [decide_eq_false_iff_not, not_le] <;>
    nlinarith

/-- A concrete trailing-enabled BUY position for the C3 witness. -/
def c3_position : PositionEntry :=
  { trade_id := 3
    option_type := .CALL
    strike_price := 25000
    action := .BUY
    quantity := 1
    entry_price := 100
    stop_loss := 85
    target_price := 130
    entry_time := 0
    setup := mkCE_PE_TradeSetup 100 85 130 1 0 6 (some 1000) 85 true (5 / 100) .CALL 25000 false
    is_spread := false }

/-- Witness for C3: the trailing stop of a concrete enabled position does
not fire at price 100. -/
theorem c3_witness : should_exit_trailing_stop c3_position 100 = false :=
  c3_trailing_stop_never_fires c3_position 100
    (by norm_num [c3_position, mkCE_PE_TradeSetup])
    (by norm_num [c3_position, mkCE_PE_TradeSetup])
    (by norm_num [c3_position, mkCE_PE_TradeSetup])
    (by norm_num)

/-- The C8 scenario position: LONG (BUY) with entry 100, stop 85, target
130, a symbolic quantity. -/
def c8_position (quantity : ℤ) : PositionEntry :=
  { trade_id := 8
    option_type := .CALL
    strike_price := 25000
    action := .BUY
    quantity := quantity
    entry_price := 100
    stop_loss := 85
    target_price := 130
    entry_time := 0
    setup := mkCE_PE_TradeSetup 100 85 130 quantity 0 6 (some 1000) 85 true (5 / 100) .CALL 25000 false
    is_spread := false }

/-- C8.  At tick price 84 the scenario-B position exits with STOP_LOSS at
exit price 84 and realized P&L `(84 - 100) * quantity * 50 < 0`; in
general the exit P&L is `(exit - entry) * quantity * 50` signed `+1` for
BUY and `-1` for SELL. -/
theorem c8_scenario_b (quantity : ℤ) (hq : 1 ≤ quantity) :
    exit_reason_for (c8_position quantity) 84 0 = some .STOP_LOSS
  ∧ monitor_ce_pe_positions [c8_position quantity] 84 0 =
      [{ trade_id := 8, reason := .STOP_LOSS, current_price := 84 }]
  ∧ exit_pnl (c8_position quantity) 84 = (84 - 100) * quantity * 50
  ∧ exit_pnl (c8_position quantity) 84 < 0
  ∧ (∀ (p : PositionEntry) (price : ℚ),
      (p.action = .BUY →
        exit_pnl p price = (price - p.entry_price) * p.quantity * 50) ∧
      (p.action = .SELL →
        exit_pnl p price = -((price - p.entry_price) * p.quantity * 50))) := by
  have hq' : (1 : ℚ) ≤ (quantity : ℚ) := by exact_mod_cast hq
  refine ⟨?_, ?_, ?_, ?_, ?_⟩
  · norm_num [exit_reason_for, should_exit_ce_pe_stop_loss, c8_position,
      mkCE_PE_TradeSetup]
  · norm_num [monitor_ce_pe_positions, List.filterMap_cons, exit_reason_for,
      should_exit_ce_pe_stop_loss, c8_position, mkCE_PE_TradeSetup]
  · simp [exit_pnl, c8_position]
  · have : exit_pnl (c8_position quantity) 84 = (84 - 100) * quantity * 50 := by
      simp [exit_pnl, c8_position]
    rw [this]
    nlinarith
  · intro p price
    constructor <;> intro h <;> simp [exit_pnl, h] <;> ring

/-- Witness for C8 at quantity 1: the realized P&L of the stop-loss exit
is negative. -/
theorem c8_witness : exit_pnl (c8_position 1) 84 < 0 :=
  (c8_scenario_b 1 (by norm_num)).2.2.2.1

/-- A filler single-leg PUT position used to populate concrete states. -/
def dummy_position (trade_id : ℕ) : PositionEntry :=
  { trade_id := trade_id
    option_type := .PUT
    strike_price := 25000
    action := .BUY
    quantity := 1
    entry_price := 100
    stop_loss := 85
    target_price := 130
    entry_time := 0
    setup := mkCE_PE_TradeSetup 100 85 130 1 0 6 (some 1000) 85 true (5 / 100) .PUT 25000 false
    is_spread := false }

/-- A state in which the CALL class cap, the daily loss limit AND the total
position cap are all violated at once. -/
def c2_full_state : TraderState :=
  { market_open := true
    account_balance := 100000
    intraday_positions :=
      [dummy_position 1, dummy_position 2, dummy_position 3, dummy_position 4,
       dummy_position 5]
    intraday_trades := []
    daily_pnl := -6000
    ce_positions := 3
    pe_positions := 0
    spread_positions := 0
    next_trade_id := 6 }

/-- Counterexample to C2 as stated: in `c2_full_state` both the per-class
cap and the daily loss limit are violated, yet the surfaced reason is the
total-position cap, not the per-class cap (the claim quantifies over every
such state). -/
theorem c2_counterexample :
    (3 ≤ c2_full_state.ce_positions ∧
     c2_full_state.account_balance * (5 / 100) < |c2_full_state.daily_pnl|)
  ∧ can_place_ce_pe_trade c2_full_state .CALL false ≠
      (false, .MAX_CE_POSITIONS)
  ∧ can_place_ce_pe_trade c2_full_state .CALL false =
      (false, .MAX_TOTAL_POSITIONS) := by
  have heq : can_place_ce_pe_trade c2_full_state .CALL false =
      (false, .MAX_TOTAL_POSITIONS) := by
    norm_num [can_place_ce_pe_trade, c2_full_state]
  refine ⟨⟨by norm_num [c2_full_state], by norm_num [c2_full_state]⟩, ?_, heq⟩
  rw [heq]
  decide

/-- C2 amended.  Provided the earlier checks of the fixed order pass
(market open, total cap not reached), a violated per-class cap yields the
per-class reason whatever the daily-loss state; and whenever the per-class
cap is violated the reported reason is never the daily-loss reason. -/
theorem c2_admission_class_cap :
    (∀ (s : TraderState) (option_type : OptionType) (is_spread : Bool),
        s.market_open = true →
        s.intraday_positions.length < 5 →
        ((option_type = .CALL ∧ 3 ≤ s.ce_positions) ∨
         (option_type = .PUT ∧ 3 ≤ s.pe_positions)) →
        can_place_ce_pe_trade s option_type is_spread =
          (false,
            if option_type = .CALL then AdmitReason.MAX_CE_POSITIONS
            else AdmitReason.MAX_PE_POSITIONS))
  ∧ (∀ (s : TraderState) (option_type : OptionType) (is_spread : Bool),
        ((option_type = .CALL ∧ 3 ≤ s.ce_positions) ∨
         (option_type = .PUT ∧ 3 ≤ s.pe_positions)) →
        (can_place_ce_pe_trade s option_type is_spread).2 ≠
          .DAILY_LOSS_LIMIT) := by
  constructor
  · intro s option_type is_spread hopen htotal hclass
    rcases hclass with ⟨hot, hcnt⟩ | ⟨hot, hcnt⟩ <;> subst hot <;>
      simp [can_place_ce_pe_trade, hopen, hcnt, Nat.not_le.mpr htotal]
  · intro s option_type is_spread hclass
    rcases hclass with ⟨hot, hcnt⟩ | ⟨hot, hcnt⟩ <;> subst hot <;>
      rw [can_place_ce_pe_trade] <;> split_ifs <;> simp_all

/-- Scenario C state: market open, three open positions, CALL count at its
cap of 3, daily P&L untouched. -/
def c2_scenario_state : TraderState :=
  { market_open := true
    account_balance := 100000
    intraday_positions := [dummy_position 1, dummy_position 2, dummy_position 3]
    intraday_trades := []
    daily_pnl := 0
    ce_positions := 3
    pe_positions := 0
    spread_positions := 0
    next_trade_id := 4 }

/-- Witness for the amended C2: Scenario C — CALL cap 3, current CALL
count 3, total cap and daily loss fine — surfaces the CE-cap reason. -/
theorem c2_witness :
    can_place_ce_pe_trade c2_scenario_state .CALL false =
      (false, .MAX_CE_POSITIONS) := by
  have h := c2_admission_class_cap.1 c2_scenario_state .CALL false
    (by norm_num [c2_scenario_state])
    (by norm_num [c2_scenario_state])
    (Or.inl ⟨rfl, by norm_num [c2_scenario_state]⟩)
  simpa using h

/-- C4.  Scenario A: entry 100, stop 85, risk budget 3000 — the risk per
lot is 750, the uncapped quantity is `int(3000 / 750) = 4`, the returned
quantity obeys the balance cap `quantity * entry * 50 ≤ balance * 0.1`,
and equals 4 whenever the balance cap admits 4 lots. -/
theorem c4_scenario_a (account_balance : ℚ) (hb : 0 ≤ account_balance) :
    (|(100 : ℚ) - 85| * 50 = 750)
  ∧ pyInt ((3000 : ℚ) / 750) = 4
  ∧ ((calculate_position_size 100 85 3000 account_balance : ℤ) : ℚ) * 100 * 50 ≤
      account_balance * (1 / 10)
  ∧ (200000 ≤ account_balance →
      calculate_position_size 100 85 3000 account_balance = 4) := by
  have hcalc : calculate_position_size 100 85 3000 account_balance =
      min 4 (pyInt (account_balance * (1 / 10) / 5000)) := by
    norm_num [calculate_position_size, pyInt]
  have hq : (0 : ℚ) ≤ account_balance * (1 / 10) / 5000 := by positivity
  have hfloor : ((pyInt (account_balance * (1 / 10) / 5000) : ℤ) : ℚ) ≤
      account_balance * (1 / 10) / 5000 := by
    rw [pyInt, if_pos hq]
    exact Int.floor_le _
  refine ⟨by norm_num, by norm_num [pyInt], ?_, ?_⟩
  · have hmin : ((calculate_position_size 100 85 3000 account_balance : ℤ) : ℚ) ≤
        account_balance * (1 / 10) / 5000 := by
      rw [hcalc]
      exact le_trans (by exact_mod_cast min_le_right 4 _) hfloor
    nlinarith
  · intro h200
    have hcap : (4 : ℤ) ≤ pyInt (account_balance * (1 / 10) / 5000) := by
      rw [pyInt, if_pos hq]
      rw [Int.le_floor]
      push_cast
      nlinarith
    rw [hcalc, min_eq_left hcap]

/-- Witness for C4 at balance 200000: the quantity is exactly 4. -/
theorem c4_witness : calculate_position_size 100 85 3000 200000 = 4 :=
  (c4_scenario_a 200000 (by norm_num)).2.2.2 (by norm_num)

/-- Spec-side predicate (section 3 of the spec): the entry/stop/target
ordering invariant of a stored position — `stop < entry < target` for a
LONG (BUY) entry, `target < entry < stop` for a SHORT (SELL) entry. -/
def spec_setup_ordering_ok (position : PositionEntry) : Bool :=
  match position.action with
  | .BUY =>
      decide (position.setup.stop_loss < position.setup.entry_price) &&
      decide (position.setup.entry_price < position.setup.target_price)
  | .SELL =>
      decide (position.setup.target_price < position.setup.entry_price) &&
      decide (position.setup.entry_price < position.setup.stop_loss)

/-- A fresh trading state: market open, default balance, nothing open. -/
def fresh_state : TraderState :=
  { market_open := true
    account_balance := 100000
    intraday_positions := []
    intraday_trades := []
    daily_pnl := 0
    ce_positions := 0
    pe_positions := 0
    spread_positions := 0
    next_trade_id := 0 }

/-- A BUY placement with a negative stop-loss percentage: the computed
stop `100 * (1 - (-1/5)) = 120` sits above the entry 100, violating the
LONG ordering. -/
def c5_result : TraderState × Option PositionEntry :=
  place_ce_pe_intraday_trade fresh_state .CALL 25000 .BUY 100
    (some (-(1 / 5))) (some (3 / 10)) (some 1) none none false 0 true

/-- Counterexample to C5 as stated: the violating setup is constructed
without any failure and the trade is placed, so an ACTIVE position carries
an ordering-violating setup. -/
theorem c5_counterexample :
    c5_result.2.isSome = true
  ∧ c5_result.1.intraday_positions.length = 1
  ∧ c5_result.1.intraday_positions.all spec_setup_ordering_ok = false := by
  refine ⟨?_, ?_, ?_⟩ <;>
    norm_num [c5_result, fresh_state, place_ce_pe_intraday_trade,
      can_place_ce_pe_trade, mkCE_PE_TradeSetup, spec_setup_ordering_ok,
      List.all]

/-- C5 amended.  Ordering validation lives only on the
`place_option_order_with_setup` path: there, any entry/stop/target
ordering violation makes the call return `None` before a trade setup is
activated (the raised `ValueError` is caught by the function itself). -/
theorem c5_with_setup_rejects (account_balance max_risk_per_trade : ℚ)
    (action : Action) (entry_price stop_loss target_price : ℚ)
    (quantity : Option ℤ) (risk_amount : Option ℚ) (order_ok : Bool)
    (hviol : ¬ ((action = .BUY ∧ stop_loss < entry_price ∧ entry_price < target_price) ∨
                (action = .SELL ∧ target_price < entry_price ∧ entry_price < stop_loss))) :
    place_option_order_with_setup account_balance max_risk_per_trade action
      entry_price stop_loss target_price quantity risk_amount order_ok = none := by
  have hvalid : setup_order_valid action entry_price stop_loss target_price = false := by
    cases action with
    | BUY =>
        have h : ¬ (stop_loss < entry_price ∧ entry_price < target_price) :=
          fun h => hviol (Or.inl ⟨rfl, h⟩)
        rcases not_and_or.mp h with h1 | h1 <;>
          simp [setup_order_valid, decide_eq_false h1]
    | SELL =>
        have h : ¬ (target_price < entry_price ∧ entry_price < stop_loss) :=
          fun h => hviol (Or.inr ⟨rfl, h⟩)
        rcases not_and_or.mp h with h1 | h1 <;>
          simp [setup_order_valid, decide_eq_false h1]
  simp [place_option_order_with_setup, hvalid]

/-- Witness for the amended C5: a BUY with stop 120 above entry 100 is
rejected with `None`. -/
theorem c5_witness :
    place_option_order_with_setup 100000 (2 / 100) .BUY 100 120 130
      (some 1) none true = none :=
  c5_with_setup_rejects 100000 (2 / 100) .BUY 100 120 130 (some 1) none true
    (by norm_num)

/-- After removing every entry with a given trade id, a lookup of that id
fails. -/
lemma find_filter_ne_none (positions : List PositionEntry) (trade_id : ℕ) :
    (positions.filter (fun p => p.trade_id != trade_id)).find?
      (fun p => p.trade_id == trade_id) = none := by
  rw [List.find?_eq_none]
  intro x hx
  have hmem := List.mem_filter.mp hx
  simpa using (by simpa using hmem.2 : x.trade_id ≠ trade_id)

/-- C6.  For an active position, the first `exit_ce_pe_position` returns
`True`, adds the realized P&L to the daily accumulator once and removes
the position from the active dict; a second exit for the same trade id
returns `False` and is a strict no-op on the whole state. -/
theorem c6_exit_idempotent (s : TraderState) (trade_id : ℕ) (reason : ExitReason)
    (exit_price : ℚ) (t1 t2 : ℤ) (position : PositionEntry)
    (hfound : s.intraday_positions.find? (fun p => p.trade_id == trade_id) =
      some position) :
    (exit_ce_pe_position s trade_id reason exit_price t1).2 = true
  ∧ (exit_ce_pe_position s trade_id reason exit_price t1).1.daily_pnl =
      s.daily_pnl + exit_pnl position exit_price
  ∧ (exit_ce_pe_position s trade_id reason exit_price t1).1.intraday_positions.find?
      (fun p => p.trade_id == trade_id) = none
  ∧ exit_ce_pe_position (exit_ce_pe_position s trade_id reason exit_price t1).1
      trade_id reason exit_price t2 =
      ((exit_ce_pe_position s trade_id reason exit_price t1).1, false) := by
  have hnone := find_filter_ne_none s.intraday_positions trade_id
  refine ⟨?_, ?_, ?_, ?_⟩ <;>
    simp [exit_ce_pe_position, hfound, hnone]

/-- A state holding one active position with trade id 7. -/
def c6_state : TraderState :=
  { market_open := true
    account_balance := 100000
    intraday_positions := [dummy_position 7]
    intraday_trades := []
    daily_pnl := 0
    ce_positions := 0
    pe_positions := 1
    spread_positions := 0
    next_trade_id := 8 }

/-- Witness for C6: exiting trade 7 twice at price 84 — the second call
returns `False` and changes nothing. -/
theorem c6_witness :
    exit_ce_pe_position (exit_ce_pe_position c6_state 7 .STOP_LOSS 84 10).1
      7 .STOP_LOSS 84 11 =
      ((exit_ce_pe_position c6_state 7 .STOP_LOSS 84 10).1, false) :=
  (c6_exit_idempotent c6_state 7 .STOP_LOSS 84 10 11 (dummy_position 7)
    (by rfl)).2.2.2

/-- The pre-existing CE spread leg of the C7 failing input. -/
def c7_prior_leg : PositionEntry :=
  { trade_id := 0
    option_type := .CALL
    strike_price := 24900
    action := .BUY
    quantity := 1
    entry_price := 90
    stop_loss := 90 * (1 - 15 / 100)
    target_price := 90 * (1 + 30 / 100)
    entry_time := 0
    setup := mkCE_PE_TradeSetup 90 (90 * (1 - 15 / 100)) (90 * (1 + 30 / 100)) 1
      0 6 (some 6) (90 * (1 - 15 / 100)) true (5 / 100) .CALL 24900 true
    is_spread := true }

/-- C7 failing input: one spread leg already open, so the spread cap of 2
admits exactly one more leg. -/
def c7_state : TraderState :=
  { market_open := true
    account_balance := 100000
    intraday_positions := [c7_prior_leg]
    intraday_trades := []
    daily_pnl := 0
    ce_positions := 1
    pe_positions := 0
    spread_positions := 1
    next_trade_id := 1 }

/-- The straddle attempt on the C7 failing input: the CE leg is admitted
(spread count 1 < 2) and fills, the PE leg is then denied by the spread
cap (2 ≤ 2). -/
def c7_result : TraderState × Option (PositionEntry × PositionEntry) :=
  place_straddle_trade c7_state 25000 100 100 (15 / 100) (30 / 100) 1 none 0
    true true

/-- C7 evaluated at the failing input: the straddle build fails, yet the
freshly opened CE leg (trade id 1, a CALL) stays in the active set — no
rollback / compensating exit is issued. -/
theorem c7_no_rollback :
    c7_result.2 = none
  ∧ c7_result.1.intraday_positions.map (fun p => p.trade_id) = [0, 1]
  ∧ c7_result.1.intraday_positions.map (fun p => p.option_type) =
      [.CALL, .CALL]
  ∧ c7_result.1.spread_positions = 2 := by
  refine ⟨?_, ?_, ?_, ?_⟩ <;>
    norm_num [c7_result, c7_state, c7_prior_leg, place_straddle_trade,
      place_ce_pe_intraday_trade, can_place_ce_pe_trade, mkCE_PE_TradeSetup]

/-- Python truncation toward zero is monotone. -/
lemma pyInt_mono {x y : ℚ} (h : x ≤ y) : pyInt x ≤ pyInt y := by
  unfold pyInt
  rcases le_or_lt 0 x with hx | hx <;> rcases le_or_lt 0 y with hy | hy
  · rw [if_pos hx, if_pos hy]
    exact Int.floor_le_floor h
  · exact absurd (lt_of_le_of_lt h hy) (not_lt.mpr hx)
  · rw [if_neg (not_le.mpr hx), if_pos hy]
    have hfx : (0 : ℤ) ≤ ⌊-x⌋ := Int.floor_nonneg.mpr (by linarith)
    have hfy : (0 : ℤ) ≤ ⌊y⌋ := Int.floor_nonneg.mpr hy
    omega
  · rw [if_neg (not_le.mpr hx), if_neg (not_le.mpr hy)]
    have hf : ⌊-y⌋ ≤ ⌊-x⌋ := Int.floor_le_floor (by linarith)
    omega

/-- Counterexample to C9 as stated: with stop prices 100 and 85 at entry
100, the smaller distance `|100 - 100| = 0` yields quantity 0 (the
degenerate-risk early return) while the larger distance yields quantity 2
— a strictly smaller quantity for the smaller risk-per-unit. -/
theorem c9_counterexample :
    |(100 : ℚ) - 100| ≤ |(100 : ℚ) - 85|
  ∧ calculate_position_size 100 100 3000 100000 = 0
  ∧ calculate_position_size 100 85 3000 100000 = 2
  ∧ calculate_position_size 100 100 3000 100000 <
      calculate_position_size 100 85 3000 100000 := by
  refine ⟨by norm_num, ?_, ?_, ?_⟩ <;>
    norm_num [calculate_position_size, pyInt]

/-- C9 amended.  Restricted to non-degenerate stops (strictly positive
`|entry - stop|`), the quantity is monotonically non-increasing in the
risk-per-unit: the stop with the smaller distance never yields the smaller
quantity. -/
theorem c9_sizing_monotone (entry_price stop1 stop2 risk_amount account_balance : ℚ)
    (h1 : 0 < |entry_price - stop1|)
    (h12 : |entry_price - stop1| ≤ |entry_price - stop2|) :
    calculate_position_size entry_price stop2 risk_amount account_balance ≤
      calculate_position_size entry_price stop1 risk_amount account_balance := by
  have h2 : 0 < |entry_price - stop2| := lt_of_lt_of_le h1 h12
  have hd1 : 0 < |entry_price - stop1| * 50 := by positivity
  have hd2 : 0 < |entry_price - stop2| * 50 := by positivity
  unfold calculate_position_size
  rw [if_neg (not_le.mpr hd1), if_neg (not_le.mpr hd2)]
  apply min_le_min _ (le_refl _)
  rcases le_or_lt 0 risk_amount with hr | hr
  · have hq : risk_amount / (|entry_price - stop2| * 50) ≤
        risk_amount / (|entry_price - stop1| * 50) := by
      apply div_le_div_of_nonneg_left hr hd1
      nlinarith
    have hps := pyInt_mono hq
    split_ifs <;> omega
  · have hneg : ∀ s : ℚ, 0 < s → pyInt (risk_amount / s) < 1 := by
      intro s hs
      have : risk_amount / s ≤ 0 := le_of_lt (div_neg_of_neg_of_pos hr hs)
      have h0 : pyInt (risk_amount / s) ≤ pyInt 0 := pyInt_mono this
      have : pyInt 0 = 0 := by norm_num [pyInt]
      omega
    rw [if_pos (hneg _ hd1), if_pos (hneg _ hd2)]

/-- Witness for the amended C9: at entry 100 with stops 90 (distance 10)
and 80 (distance 20), the wider stop yields no more lots. -/
theorem c9_witness :
    calculate_position_size 100 80 3000 1000000 ≤
      calculate_position_size 100 90 3000 1000000 :=
  c9_sizing_monotone 100 90 80 3000 1000000 (by norm_num) (by norm_num)

/-- One step of the trader preserves non-negativity of the per-class open
counters: placements increment, exits decrement with a clamp at zero. -/
lemma stepTrader_counters_nonneg (s : TraderState) (op : TraderOp)
    (hce : 0 ≤ s.ce_positions) (hpe : 0 ≤ s.pe_positions)
    (hsp : 0 ≤ s.spread_positions) :
    0 ≤ (stepTrader s op).ce_positions ∧ 0 ≤ (stepTrader s op).pe_positions ∧
      0 ≤ (stepTrader s op).spread_positions := by
  cases op with
  | place option_type strike_price action entry_price slp tp quantity
      risk_amount hours is_spread now order_ok =>
      simp only [stepTrader, place_ce_pe_intraday_trade]
      split_ifs <;> simp_all <;> omega
  | exit trade_id reason exit_price now =>
      simp only [stepTrader, exit_ce_pe_position]
      cases hfind : s.intraday_positions.find? (fun p => p.trade_id == trade_id) with
      | none => exact ⟨hce, hpe, hsp⟩
      | some position =>
          refine ⟨?_, ?_, ?_⟩ <;> dsimp only <;> split_ifs <;> omega

/-- C10.  From any state with non-negative per-class counters — the
trader starts with all three at zero — every sequence of trade-placement
and exit operations keeps `ce_positions`, `pe_positions` and
`spread_positions` non-negative, even when exits outnumber entries. -/
theorem c10_counters_nonneg (s : TraderState) (ops : List TraderOp)
    (hce : 0 ≤ s.ce_positions) (hpe : 0 ≤ s.pe_positions)
    (hsp : 0 ≤ s.spread_positions) :
    0 ≤ (runTrader s ops).ce_positions ∧ 0 ≤ (runTrader s ops).pe_positions ∧
      0 ≤ (runTrader s ops).spread_positions := by
  induction ops generalizing s with
  | nil => exact ⟨hce, hpe, hsp⟩
  | cons op ops ih =>
      have h := stepTrader_counters_nonneg s op hce hpe hsp
      exact ih (stepTrader s op) h.1 h.2.1 h.2.2

/-- Witness for C10: from the fresh state, one placement followed by two
exits of the same trade (the second unmatched by an entry) leaves all
counters non-negative. -/
theorem c10_witness :
    0 ≤ (runTrader fresh_state
        [.place .CALL 25000 .BUY 100 none none (some 1) none none true 0 true,
         .exit 0 .STOP_LOSS 84 1,
         .exit 0 .STOP_LOSS 84 2]).ce_positions
  ∧ 0 ≤ (runTrader fresh_state
        [.place .CALL 25000 .BUY 100 none none (some 1) none none true 0 true,
         .exit 0 .STOP_LOSS 84 1,
         .exit 0 .STOP_LOSS 84 2]).pe_positions
  ∧ 0 ≤ (runTrader fresh_state
        [.place .CALL 25000 .BUY 100 none none (some 1) none none true 0 true,
         .exit 0 .STOP_LOSS 84 1,
         .exit 0 .STOP_LOSS 84 2]).spread_positions :=
  c10_counters_nonneg fresh_state
    [.place .CALL 25000 .BUY 100 none none (some 1) none none true 0 true,
     .exit 0 .STOP_LOSS 84 1,
     .exit 0 .STOP_LOSS 84 2]
    (by norm_num [fresh_state]) (by norm_num [fresh_state])
    (by norm_num [fresh_state])

end NewMarket
